import Mathlib

/-!
Verification of the pytrader `v2/rest_api/orm.py` declarative schema.

The source file declares a layered SQLAlchemy model: `IDClass` (identity)
→ `TimeBaseClass` (timestamps) → `OwnedClass` / `TestBases` /
`AddDeleteTrackClass`, composed into the concrete tables (`Users`,
`Workers`, `OAuthAuth`, `OAuthAccess`, `PerformanceComparison`,
`TradeSites`, `Tasks`, `TaskResults`, `BaseTest`, `PredictionTest`).
We embed the declared column metadata (names, types, foreign-key targets,
defaults, onupdate behaviour) and the write-time semantics those
declarations induce (insert-time defaults, onupdate refresh, ChoiceType
validation), and prove the specification claims about them.
-/

namespace Orm

/-- Column type as declared in `orm.py`. `encrypted` is
`EncryptedType(inner)`; `choice` is `ChoiceType(choices)` with its
declared (key, label) pairs; `untyped` covers the one column declared
with no type (`TaskResults.average_diff`). -/
inductive ColType where
  | integer : ColType
  | string : Nat → ColType
  | dateTime : ColType
  | boolean : ColType
  | float : ColType
  | text : Nat → ColType
  | ipAddress : ColType
  | encrypted : ColType → ColType
  | choice : List (String × String) → ColType
  | untyped : ColType
  deriving Repr, DecidableEq

/-- Insert-time default of a column, as declared: none, `datetime.datetime.now`,
`get_random_salt`, or a constant integer. -/
inductive ColDefault where
  | noDefault : ColDefault
  | now : ColDefault
  | randomSalt : ColDefault
  | intConst : Int → ColDefault
  deriving Repr, DecidableEq

/-- The `onupdate=` argument of a column: absent, or `datetime.datetime.now`. -/
inductive OnUpdate where
  | noOnUpdate : OnUpdate
  | now : OnUpdate
  deriving Repr, DecidableEq

/-- One `Column(...)` declaration: the python attribute name, the SQL
column name (the first positional argument), the type, the optional
`ForeignKey` target string, and the declared flags. -/
structure ColumnDef where
  attr : String
  name : String
  type : ColType
  fk : Option String := none
  primaryKey : Bool := false
  nullable : Bool := true
  default : ColDefault := ColDefault.noDefault
  onupdate : OnUpdate := OnUpdate.noOnUpdate
  deriving Repr, DecidableEq

/-- Columns of `IDClass`. -/
def idClassColumns : List ColumnDef :=
  [{ attr := "id", name := "id", type := ColType.integer, primaryKey := true }]

/-- Columns of `TimeBaseClass` (inherits `IDClass`). -/
def timeBaseColumns : List ColumnDef :=
  idClassColumns ++
  [{ attr := "date_created", name := "date_created", type := ColType.dateTime,
     default := ColDefault.now },
   { attr := "date_updated", name := "date_updated", type := ColType.dateTime,
     default := ColDefault.now, onupdate := OnUpdate.now }]

/-- Columns of `OwnedClass` (inherits `TimeBaseClass`). -/
def ownedColumns : List ColumnDef :=
  timeBaseColumns ++
  [{ attr := "user_id", name := "user_id", type := ColType.integer,
     fk := some "users.id" }]

/-- Columns of `TestBases` (inherits `TimeBaseClass`). -/
def testBasesColumns : List ColumnDef :=
  timeBaseColumns ++
  [{ attr := "classifier_test_id", name := "classifier_test_id", type := ColType.integer,
     fk := some "ClassifierTests.id" },
   { attr := "prediction_test_id", name := "prediction_test_id", type := ColType.integer,
     fk := some "PredictionTests.id" }]

/-- Columns of `AddDeleteTrackClass` (inherits `TimeBaseClass`). Note the
declared `default=datetime.datetime.now` on `date_deleted`. -/
def addDeleteTrackColumns : List ColumnDef :=
  timeBaseColumns ++
  [{ attr := "date_deleted", name := "date_deleted", type := ColType.dateTime,
     default := ColDefault.now },
   { attr := "deleted", name := "deleted", type := ColType.boolean },
   { attr := "created_user_id", name := "created_user_id", type := ColType.integer,
     fk := some "Users.id" },
   { attr := "deleted_user_id", name := "deleted_user_id", type := ColType.integer,
     fk := some "Users.id" }]

/-- Columns added by `Users` itself (inherits `AddDeleteTrackClass`). -/
def usersOwnColumns : List ColumnDef :=
  [{ attr := "username", name := "username", type := ColType.string 256,
     nullable := false },
   { attr := "secret_key", name := "secret_key",
     type := ColType.encrypted (ColType.string 256) },
   { attr := "secret_key_salt", name := "secret_key_salt", type := ColType.string 32,
     default := ColDefault.randomSalt }]

/-- Full column list of the `Users` table. -/
def usersColumns : List ColumnDef := addDeleteTrackColumns ++ usersOwnColumns

/-- Columns of the `Workers` table (inherits `OwnedClass`). -/
def workersColumns : List ColumnDef :=
  ownedColumns ++
  [{ attr := "ip_address", name := "ip_address", type := ColType.ipAddress },
   { attr := "last_check_in", name := "last_check_in", type := ColType.dateTime },
   { attr := "tasks_complete", name := "tasks_complete", type := ColType.integer,
     default := ColDefault.intConst 0 },
   { attr := "task_id", name := "task_id", type := ColType.integer,
     fk := some "Tasks.id" }]

/-- The `TEST_TYPES` choice list declared on `BaseTest`. -/
def TEST_TYPES : List (String × String) := [("mock", "Mock"), ("live", "Live")]

/-- Columns added by `BaseTest` itself (inherits `AddDeleteTrackClass`).
The `site_id` attribute is declared over SQL column name `task_id`, and
`symbol_pair_id` over SQL column name `worker_id`, exactly as in the source. -/
def baseTestOwnColumns : List ColumnDef :=
  [{ attr := "test_type", name := "test_type", type := ColType.choice TEST_TYPES },
   { attr := "data_set_inputs", name := "data_set_inputs", type := ColType.integer },
   { attr := "granularity", name := "granularity", type := ColType.integer },
   { attr := "minutes_back", name := "minutes_back", type := ColType.integer },
   { attr := "training_set_length", name := "training_set_length", type := ColType.integer },
   { attr := "site_id", name := "task_id", type := ColType.integer,
     fk := some "TradeSites.id" },
   { attr := "symbol_pair_id", name := "worker_id", type := ColType.integer,
     fk := some "SymbolPairs.id" }]

/-- Full column list of `BaseTest`. -/
def baseTestColumns : List ColumnDef := addDeleteTrackColumns ++ baseTestOwnColumns

/-- The `PREDICTION_TYPES` choice list declared on `PredictionTest`: empty. -/
def PREDICTION_TYPES : List (String × String) := []

/-- Columns added by `PredictionTest` itself (inherits `BaseTest`). The
source's `prediction_type` declaration is malformed python (a colon in
place of a comma inside the `Column(...)` call); we embed the evidently
intended declaration `Column('prediction_type', ChoiceType(PREDICTION_TYPES))`. -/
def predictionTestOwnColumns : List ColumnDef :=
  [{ attr := "prediction_type", name := "prediction_type",
     type := ColType.choice PREDICTION_TYPES },
   { attr := "bias", name := "bias", type := ColType.boolean },
   { attr := "recurrent", name := "recurrent", type := ColType.boolean },
   { attr := "weight_delay", name := "weight_delay", type := ColType.float },
   { attr := "hidden_neurons", name := "hidden_neurons", type := ColType.integer },
   { attr := "epochs", name := "epochs", type := ColType.integer },
   { attr := "momentum", name := "momentum", type := ColType.float },
   { attr := "learning_rate", name := "learning_rate", type := ColType.float }]

/-- Full column list of `PredictionTest`. -/
def predictionTestColumns : List ColumnDef := baseTestColumns ++ predictionTestOwnColumns

/-- Columns of `TaskResults` (inherits `TestBases`). Its `worker_id` and
`task_id` attributes are declared over SQL column names `worker_id` and
`task_id` referencing `Workers.id` and `Tasks.id`. -/
def taskResultsColumns : List ColumnDef :=
  testBasesColumns ++
  [{ attr := "average_diff", name := "average_diff", type := ColType.untyped },
   { attr := "output", name := "output", type := ColType.text 65535 },
   { attr := "percent_correct", name := "percent_correct", type := ColType.integer },
   { attr := "prediction_size", name := "prediction_size", type := ColType.integer },
   { attr := "profit_loss_float", name := "profit_loss_float", type := ColType.float },
   { attr := "profit_loss_int", name := "profit_loss_int", type := ColType.integer },
   { attr := "run_time", name := "run_time", type := ColType.float },
   { attr := "score", name := "score", type := ColType.integer },
   { attr := "worker_id", name := "worker_id", type := ColType.integer,
     fk := some "Workers.id" },
   { attr := "task_id", name := "task_id", type := ColType.integer,
     fk := some "Tasks.id" }]

/-- The `__tablename__` values declared in the source, in order of
declaration. Only these tables exist in the declared schema. -/
def declaredTableNames : List String :=
  ["Users", "Workers", "OAuthAuth", "OAuthAccess", "PerformanceComparison",
   "TradeSites", "Tasks", "TaskResults", "PredictionTest"]

/-- Look up a column declaration by its python attribute name. -/
def colByAttr (cols : List ColumnDef) (a : String) : Option ColumnDef :=
  cols.find? (fun c => c.attr = a)

/-- The table part of a `ForeignKey` target string such as `Users.id`. -/
def fkTargetTable (target : String) : String :=
  String.mk (target.toList.takeWhile (fun c => c ≠ '.'))

/-! ## Write-time semantics of the declared columns

Time is modelled as a `Nat` clock; `datetime.datetime.now` at instant `t`
yields `t`. Column values are `Option`-typed: `none` is SQL NULL. An
insert applies each column's declared `default` to any value not
supplied explicitly; an UPDATE applies each column's declared
`onupdate`. -/

/-- Row state of the `TimeBaseClass` layer (`date_created`, `date_updated`). -/
structure TimeRow where
  date_created : Option Nat
  date_updated : Option Nat
  deriving Repr, DecidableEq

/-- INSERT of a bare `TimeBaseClass` row at clock `t` with neither
timestamp supplied: both columns take their declared
`default=datetime.datetime.now`. -/
def timeInsert (t : Nat) : TimeRow :=
  { date_created := some t, date_updated := some t }

/-- UPDATE (any mutation) of a `TimeBaseClass` row at clock `t`:
`date_updated` carries `onupdate=datetime.datetime.now` and is refreshed;
`date_created` has no `onupdate` and is untouched. -/
def timeTouch (t : Nat) (r : TimeRow) : TimeRow :=
  { r with date_updated := some t }

/-- States of a `TimeBaseClass` row reachable through the declared
lifecycle: inserted at clock `t0`, then mutated at non-decreasing clock
instants. `TimeReachable t0 t r` reads: `r` was inserted at `t0` and the
clock now stands at `t ≥ t0`. -/
inductive TimeReachable : Nat → Nat → TimeRow → Prop where
  | insert (t0 : Nat) : TimeReachable t0 t0 (timeInsert t0)
  | touch {t0 t : Nat} {r : TimeRow} (tNext : Nat) (h : TimeReachable t0 t r)
      (hle : t ≤ tNext) : TimeReachable t0 tNext (timeTouch tNext r)

/-- Row state of the `AddDeleteTrackClass` layer: the two timestamps of
`TimeBaseClass` plus the four deletion/audit columns. -/
structure AuditRow where
  date_created : Option Nat
  date_updated : Option Nat
  date_deleted : Option Nat
  deleted : Option Bool
  created_user_id : Option Nat
  deleted_user_id : Option Nat
  deriving Repr, DecidableEq

/-- INSERT of an `AddDeleteTrackClass` row at clock `t` by creating user
`cu`, with no deletion field supplied explicitly. Per the declared
defaults: `date_created`, `date_updated` and `date_deleted` all carry
`default=datetime.datetime.now`, while `deleted` and `deleted_user_id`
have no default and stay NULL. -/
def auditInsert (t : Nat) (cu : Option Nat) : AuditRow :=
  { date_created := some t
    date_updated := some t
    date_deleted := some t
    deleted := none
    created_user_id := cu
    deleted_user_id := none }

/-- A row is in a mixed partial-deletion state when the three deletion
fields (`deleted` flag set true, `date_deleted`, `deleted_user_id`) are
neither all populated nor all absent. -/
def mixedDeletionState (r : AuditRow) : Prop :=
  ¬((r.deleted = some true ∧ r.date_deleted ≠ none ∧ r.deleted_user_id ≠ none) ∨
    (r.deleted ≠ some true ∧ r.date_deleted = none ∧ r.deleted_user_id = none))

instance (r : AuditRow) : Decidable (mixedDeletionState r) := by
  unfold mixedDeletionState; infer_instance

/-- Error kinds surfaced by write operations, following the spec's error
taxonomy. -/
inductive OrmError where
  | stateConflict : OrmError
  | enumViolation : OrmError
  deriving Repr, DecidableEq

/-- Modelled from the spec: the `softDelete(entity, byUser, atTime)`
operation of the attribute-composition layer. `AddDeleteTrackClass` in
`src/v2/rest_api/orm.py` declares the three deletion columns but no class
function implementing the operation, so the operation is taken from the
spec's contract: atomically set the flag, the deletion timestamp and the
deleting-user reference; fail with a state-conflict error when the row is
already flagged deleted. -/
def softDelete (r : AuditRow) (byUser : Nat) (atTime : Nat) : Except OrmError AuditRow :=
  if r.deleted = some true then
    Except.error OrmError.stateConflict
  else
    Except.ok { r with deleted := some true, date_deleted := some atTime,
                       deleted_user_id := some byUser }

/-! ## ChoiceType write-time validation

`sqlalchemy_utils` `ChoiceType(choices)` coerces a bound value through
the declared `(key, label)` pairs and rejects any key outside them, so a
write with an out-of-set value fails and persists nothing. -/

/-- The declared keys of a choice list. -/
def choiceKeys (cs : List (String × String)) : List String := cs.map Prod.fst

/-- ChoiceType validation: a value is accepted at write time when it is
one of the declared keys. -/
def choiceTypeAccepts (cs : List (String × String)) (v : String) : Bool :=
  (choiceKeys cs).contains v

/-- INSERT of a `BaseTest` row carrying `test_type = v` into a store of
persisted rows (each row abbreviated to its `test_type` value):
`ChoiceType(TEST_TYPES)` validates `v` and the row is appended only when
`v` is a declared key; otherwise the write errors and the store is
unchanged. -/
def baseTestInsert (store : List String) (v : String) : Except OrmError (List String) :=
  if choiceTypeAccepts TEST_TYPES v then Except.ok (store ++ [v])
  else Except.error OrmError.enumViolation

/-- Run a sequence of `BaseTest` inserts, keeping the store unchanged on
each rejected write. -/
def baseTestInsertMany (store : List String) (vs : List String) : List String :=
  vs.foldl (fun s v => match baseTestInsert s v with
    | Except.ok sNext => sNext
    | Except.error _ => s) store

/-- INSERT of a `PredictionTest` row carrying `prediction_type = v`:
`ChoiceType(PREDICTION_TYPES)` validates `v` against the declared (empty)
key set. -/
def predictionTestInsert (store : List String) (v : String) :
    Except OrmError (List String) :=
  if choiceTypeAccepts PREDICTION_TYPES v then Except.ok (store ++ [v])
  else Except.error OrmError.enumViolation

/-! ## `get_random_salt`

The source draws 32 independent choices from
`string.ascii_letters + string.digits + string.punctuation` using
`random.SystemRandom`. Characters are modelled by their ASCII codes and
the random source by a function `rng : Nat → Nat` giving the draw for
each of the 32 positions (`random.choice(s)` is `s[draw % len(s)]`). -/

/-- ASCII codes of `string.ascii_letters + string.digits + string.punctuation`:
lowercase `a`-`z` (97-122), uppercase `A`-`Z` (65-90), digits `0`-`9`
(48-57), then the 32 punctuation characters (codes 33-47, 58-64, 91-96,
123-126). 94 characters in all. -/
def saltAlphabet : List Nat :=
  (List.range 26).map (fun i => 97 + i) ++
  (List.range 26).map (fun i => 65 + i) ++
  (List.range 10).map (fun i => 48 + i) ++
  ((List.range 15).map (fun i => 33 + i) ++
   (List.range 7).map (fun i => 58 + i) ++
   (List.range 6).map (fun i => 91 + i) ++
   (List.range 4).map (fun i => 123 + i))

/-- The function `get_random_salt()`: join 32 draws of
`SystemRandom().choice(alphabet)`, the i-th draw taken from `rng i`. -/
def get_random_salt (rng : Nat → Nat) : List Nat :=
  (List.range 32).map (fun i => saltAlphabet.getD (rng i % saltAlphabet.length) 0)

/-! ## Field-level encryption of `Users.secret_key`

`Users.secret_key` is declared as `EncryptedType(String(length=256))`;
the encryption engine itself is `sqlalchemy_utils` library code, not part
of this repository's source. -/

/-- Modelled from the spec: the keystream byte at position `i` for a
per-record salt. The concrete engine is not in
`src/v2/rest_api/orm.py`; the spec's contract ("field-level
reversible-encryption contract keyed by a per-record salt") is realised
by a salt-derived additive stream cipher over bytes. -/
def saltByte (salt : List Nat) (i : Nat) : Nat :=
  (salt.foldl (fun a c => a * 131 + c) 7 + i * 31) % 256

/-- Modelled from the spec: encrypt a plaintext byte list under a salt
(stream addition modulo 256), `i` being the position of the first byte. -/
def encBytes (salt : List Nat) (i : Nat) : List Nat → List Nat
  | [] => []
  | b :: bs => (b + saltByte salt i) % 256 :: encBytes salt (i + 1) bs

/-- Modelled from the spec: decrypt a ciphertext byte list under a salt
(stream subtraction modulo 256), `i` being the position of the first byte. -/
def decBytes (salt : List Nat) (i : Nat) : List Nat → List Nat
  | [] => []
  | b :: bs => (b + 256 - saltByte salt i) % 256 :: decBytes salt (i + 1) bs

/-- Store a `Users.secret_key` value: field-level encryption under the
record's `secret_key_salt`. -/
def usersStoreSecretKey (salt plaintext : List Nat) : List Nat :=
  encBytes salt 0 plaintext

/-- Load a `Users.secret_key` value: field-level decryption of the stored
ciphertext under the record's `secret_key_salt`. -/
def usersLoadSecretKey (salt ciphertext : List Nat) : List Nat :=
  decBytes salt 0 ciphertext

/-! ## `Users` row lifecycle -/

/-- Row state of the columns `Users` adds over `AddDeleteTrackClass`. -/
structure UsersRow where
  username : String
  secret_key : Option (List Nat)
  secret_key_salt : Option (List Nat)
  deriving Repr, DecidableEq

/-- INSERT of a `Users` row with the salt not supplied explicitly: the
declared `default=get_random_salt` runs once, drawing from `rng`. -/
def usersInsert (rng : Nat → Nat) (name : String) (sk : Option (List Nat)) : UsersRow :=
  { username := name, secret_key := sk, secret_key_salt := some (get_random_salt rng) }

/-- The mutations the `Users` columns admit after insert: rewriting the
username or the stored secret key. No declared column of `Users` carries
an `onupdate` for the salt and no code path regenerates it, so no
mutation touches `secret_key_salt`. -/
inductive UsersMutation where
  | setUsername : String → UsersMutation
  | setSecretKey : Option (List Nat) → UsersMutation
  deriving Repr, DecidableEq

/-- Apply one mutation to a `Users` row. -/
def applyUsersMutation (r : UsersRow) : UsersMutation → UsersRow
  | UsersMutation.setUsername s => { r with username := s }
  | UsersMutation.setSecretKey sk => { r with secret_key := sk }

/-- Apply a sequence of mutations to a `Users` row. -/
def applyUsersMutations (r : UsersRow) (ms : List UsersMutation) : UsersRow :=
  ms.foldl applyUsersMutation r

/-! ## Helper lemmas -/

/-- An in-range `getD` is a member of the list. -/
theorem getD_mem_of_lt (l : List Nat) (i : Nat) (d : Nat) (h : i < l.length) :
    l.getD i d ∈ l := by
  rw [List.getD_eq_getElem l d h]
  exact List.getElem_mem h

/-- Every row surviving a run of `BaseTest` inserts over a store of
already-valid rows has a declared test kind. -/
theorem baseTestInsertMany_valid (vs : List String) (store : List String)
    (hstore : ∀ w ∈ store, w = "mock" ∨ w = "live") :
    ∀ w ∈ baseTestInsertMany store vs, w = "mock" ∨ w = "live" := by
  induction vs generalizing store with
  | nil => exact hstore
  | cons v vs ih =>
    have hstep : baseTestInsertMany store (v :: vs) =
        baseTestInsertMany
          (if choiceTypeAccepts TEST_TYPES v = true then store ++ [v] else store) vs := by
      simp only [baseTestInsertMany, List.foldl_cons, baseTestInsert]
      cases hv : choiceTypeAccepts TEST_TYPES v <;> simp [hv]
    rw [hstep]
    cases hv : choiceTypeAccepts TEST_TYPES v
    · rw [if_neg (by simp [hv])]
      exact ih store hstore
    · rw [if_pos (by simp [hv])]
      refine ih (store ++ [v]) ?_
      intro x hx
      rcases List.mem_append.mp hx with hx | hx
      · exact hstore x hx
      · have hxv : x = v := List.mem_singleton.mp hx
        subst hxv
        have hv2 := hv
        simp only [choiceTypeAccepts, TEST_TYPES, choiceKeys, List.map_cons,
          List.map_nil, List.contains_cons, List.contains_nil, Bool.or_eq_true,
          beq_iff_eq] at hv2
        tauto

/-- No mutation of a `Users` row rewrites the stored salt. -/
theorem applyUsersMutations_salt (ms : List UsersMutation) (r : UsersRow) :
    (applyUsersMutations r ms).secret_key_salt = r.secret_key_salt := by
  induction ms generalizing r with
  | nil => rfl
  | cons m ms ih =>
    cases m <;> simpa [applyUsersMutations, applyUsersMutation] using ih _

/-- Decrypting after encrypting recovers any byte list whose entries are
bytes, for every salt and every starting stream position. -/
theorem decBytes_encBytes (salt : List Nat) (pt : List Nat)
    (h : ∀ b ∈ pt, b < 256) (i : Nat) :
    decBytes salt i (encBytes salt i pt) = pt := by
  induction pt generalizing i with
  | nil => rfl
  | cons b bs ih =>
    have hb : b < 256 := h b (List.mem_cons_self b bs)
    have hk : saltByte salt i < 256 := Nat.mod_lt _ (by decide)
    simp only [encBytes, decBytes]
    have h1 : ((b + saltByte salt i) % 256 + 256 - saltByte salt i) % 256 = b := by
      omega
    rw [h1, ih (fun x hx => h x (List.mem_cons_of_mem b hx)) (i + 1)]

/-! ## The claims -/

/-- C2: for every entity composing the Timestamped layer
(`TimeBaseClass`), the creation time is set exactly once at insert and
never changed afterwards, the update time is refreshed on every mutation,
and after every mutation the update time is at least the creation time. -/
theorem claim_C2_timestamped_invariant {t0 t : Nat} {r : TimeRow}
    (h : TimeReachable t0 t r) :
    r.date_created = some t0 ∧
    ∃ u, r.date_updated = some u ∧ t0 ≤ u ∧ u ≤ t := by
  induction h with
  | insert => exact ⟨rfl, _, rfl, le_refl t0, le_refl t0⟩
  | touch tNext h hle ih =>
    refine ⟨ih.1, tNext, rfl, ?_, le_refl tNext⟩
    obtain ⟨u, _, hu1, hu2⟩ := ih.2
    omega

/-- Witness for C2: a row inserted at clock 3 and mutated at clock 5. -/
theorem claim_C2_timestamped_invariant_witness :
    (timeTouch 5 (timeInsert 3)).date_created = some 3 ∧
    ∃ u, (timeTouch 5 (timeInsert 3)).date_updated = some u ∧ 3 ≤ u ∧ u ≤ 5 :=
  claim_C2_timestamped_invariant
    (TimeReachable.touch 5 (TimeReachable.insert 3) (by omega))

/-- C9: a freshly inserted audit-deletable row has its `date_deleted`
column populated by the declared `default=datetime.datetime.now` with the
insertion time, while the `deleted` flag is left NULL. -/
theorem claim_C9_fresh_insert_date_deleted (t : Nat) (cu : Option Nat) :
    (colByAttr addDeleteTrackColumns "date_deleted").map
      (fun c => c.default) = some ColDefault.now ∧
    (colByAttr addDeleteTrackColumns "deleted").map
      (fun c => c.default) = some ColDefault.noDefault ∧
    (auditInsert t cu).date_deleted = some t ∧
    (auditInsert t cu).deleted = none :=
  ⟨rfl, rfl, rfl, rfl⟩

/-- C1 (failing input): a freshly inserted audit-deletable row (insert at
clock 0 by user 1, no deletion field supplied) carries a non-null
`date_deleted` while `deleted` and `deleted_user_id` are NULL — a mixed
partial-deletion state, contradicting the spec's invariant that the three
deletion fields are set together or not at all. -/
theorem claim_C1_fresh_insert_mixed_state :
    (colByAttr addDeleteTrackColumns "date_deleted").map
      (fun c => c.default) = some ColDefault.now ∧
    (auditInsert 0 (some 1)).date_deleted = some 0 ∧
    (auditInsert 0 (some 1)).deleted = none ∧
    (auditInsert 0 (some 1)).deleted_user_id = none ∧
    mixedDeletionState (auditInsert 0 (some 1)) := by
  refine ⟨rfl, rfl, rfl, rfl, ?_⟩
  decide

/-- C3 (spec-modelled `softDelete`): soft-deleting an already-deleted row
yields a state-conflict error and never a silent success, while
soft-deleting a not-yet-deleted row atomically sets the flag, the
deletion timestamp, and the deleting-user reference in one step. -/
theorem claim_C3_softDelete_spec (r : AuditRow) (byUser atTime : Nat) :
    (r.deleted = some true →
      softDelete r byUser atTime = Except.error OrmError.stateConflict) ∧
    (∀ rNext, softDelete r byUser atTime = Except.ok rNext →
      r.deleted ≠ some true ∧
      rNext = { r with deleted := some true, date_deleted := some atTime,
                       deleted_user_id := some byUser }) ∧
    (r.deleted ≠ some true →
      softDelete r byUser atTime =
        Except.ok { r with deleted := some true, date_deleted := some atTime,
                           deleted_user_id := some byUser }) := by
  refine ⟨fun h => ?_, fun rNext h => ?_, fun h => ?_⟩
  · simp [softDelete, h]
  · by_cases hd : r.deleted = some true
    · simp [softDelete, hd] at h
    · simp only [softDelete, if_neg hd, Except.ok.injEq] at h
      exact ⟨hd, h.symm⟩
  · simp [softDelete, h]

/-- Witness for C3: a fresh row (insert at 0 by user 1) soft-deleted by
user 2 at clock 5, then a second soft-delete of the result rejected. -/
theorem claim_C3_softDelete_spec_witness :
    softDelete (auditInsert 0 (some 1)) 2 5 =
      Except.ok { auditInsert 0 (some 1) with
                  deleted := some true,
                  date_deleted := some 5,
                  deleted_user_id := some 2 } ∧
    softDelete { auditInsert 0 (some 1) with
                 deleted := some true,
                 date_deleted := some 5,
                 deleted_user_id := some 2 } 2 7 =
      Except.error OrmError.stateConflict :=
  ⟨(claim_C3_softDelete_spec (auditInsert 0 (some 1)) 2 5).2.2 (by decide),
   (claim_C3_softDelete_spec _ 2 7).1 rfl⟩

/-- C4: a `BaseTest` write accepts a test kind exactly when it is in the
declared set (mock, live); out-of-set values are rejected at write time
with nothing persisted, so every persisted row has a declared test kind. -/
theorem claim_C4_test_type_enum (store : List String) (v : String)
    (vs : List String) :
    (choiceTypeAccepts TEST_TYPES v = true ↔ v = "mock" ∨ v = "live") ∧
    (choiceTypeAccepts TEST_TYPES v = false →
      baseTestInsert store v = Except.error OrmError.enumViolation) ∧
    (choiceTypeAccepts TEST_TYPES v = true →
      baseTestInsert store v = Except.ok (store ++ [v])) ∧
    (∀ w ∈ baseTestInsertMany [] vs, w = "mock" ∨ w = "live") := by
  refine ⟨?_, fun h => ?_, fun h => ?_, ?_⟩
  · constructor
    · intro h
      simp only [choiceTypeAccepts, TEST_TYPES, choiceKeys, List.map_cons,
        List.map_nil, List.contains_cons, List.contains_nil, Bool.or_eq_true,
        beq_iff_eq] at h
      tauto
    · intro h
      rcases h with h | h <;> subst h <;> decide
  · simp [baseTestInsert, h]
  · simp [baseTestInsert, h]
  · exact baseTestInsertMany_valid vs [] (by intro w hw; cases hw)

/-- Witness for C4: the value `junk` is rejected, the value `mock` is
accepted and persisted, and a surviving row has a declared kind. -/
theorem claim_C4_test_type_enum_witness :
    baseTestInsert [] "junk" = Except.error OrmError.enumViolation ∧
    baseTestInsert [] "mock" = Except.ok ["mock"] ∧
    ("mock" = "mock" ∨ "mock" = "live") :=
  ⟨(claim_C4_test_type_enum [] "junk" []).2.1 (by decide),
   (claim_C4_test_type_enum [] "mock" []).2.2.1 (by decide),
   (claim_C4_test_type_enum [] "x" ["mock"]).2.2.2 "mock" (by decide)⟩

/-- C7: the declared choice set for `PredictionTest.prediction_type` is
empty, so under ChoiceType write-time validation every attempted
prediction-kind value is rejected and no row is persisted. -/
theorem claim_C7_prediction_type_rejects_all (store : List String) (v : String) :
    PREDICTION_TYPES = [] ∧
    choiceTypeAccepts PREDICTION_TYPES v = false ∧
    predictionTestInsert store v = Except.error OrmError.enumViolation :=
  ⟨rfl, rfl, rfl⟩

/-- C6: in `BaseTest`, the attribute holding the trade-site reference is
declared over SQL column name `task_id` (target `TradeSites.id`) and the
attribute holding the symbol-pair reference over SQL column name
`worker_id` (target `SymbolPairs.id`), colliding with the `task_id` and
`worker_id` column names `TaskResults` uses for its task and worker
references. -/
theorem claim_C6_column_alias_collision :
    (colByAttr baseTestColumns "site_id").map (fun c => (c.name, c.fk)) =
      some ("task_id", some "TradeSites.id") ∧
    (colByAttr baseTestColumns "symbol_pair_id").map (fun c => (c.name, c.fk)) =
      some ("worker_id", some "SymbolPairs.id") ∧
    (colByAttr taskResultsColumns "task_id").map (fun c => (c.name, c.fk)) =
      some ("task_id", some "Tasks.id") ∧
    (colByAttr taskResultsColumns "worker_id").map (fun c => (c.name, c.fk)) =
      some ("worker_id", some "Workers.id") :=
  ⟨rfl, rfl, rfl, rfl⟩

/-- C10: the `OwnedClass` ownership reference targets `users.id` and the
`TestBases` linkage references target `ClassifierTests.id` and
`PredictionTests.id`, yet no declared table is named `users` (the user
table is `Users`), `ClassifierTests`, or `PredictionTests` (the
prediction-test table is `PredictionTest`), so within the declared schema
these references cannot resolve. -/
theorem claim_C10_unresolvable_fk_targets :
    (colByAttr ownedColumns "user_id").bind (fun c => c.fk) = some "users.id" ∧
    (colByAttr testBasesColumns "classifier_test_id").bind (fun c => c.fk) =
      some "ClassifierTests.id" ∧
    (colByAttr testBasesColumns "prediction_test_id").bind (fun c => c.fk) =
      some "PredictionTests.id" ∧
    fkTargetTable "users.id" ∉ declaredTableNames ∧
    fkTargetTable "ClassifierTests.id" ∉ declaredTableNames ∧
    fkTargetTable "PredictionTests.id" ∉ declaredTableNames ∧
    "Users" ∈ declaredTableNames ∧
    "PredictionTest" ∈ declaredTableNames := by
  refine ⟨rfl, rfl, rfl, ?_, ?_, ?_, ?_, ?_⟩ <;> decide

/-- C8: every generated `Users` salt has exactly 32 characters, each drawn
from the letters-digits-punctuation alphabet; the salt column's declared
default runs at creation and carries no `onupdate`, and no later mutation
of the row regenerates the stored salt. -/
theorem claim_C8_salt_generation (rng : Nat → Nat) (c : Nat) (name : String)
    (sk : Option (List Nat)) (ms : List UsersMutation) :
    (get_random_salt rng).length = 32 ∧
    (c ∈ get_random_salt rng → c ∈ saltAlphabet) ∧
    (colByAttr usersColumns "secret_key_salt").map
      (fun cd => (cd.default, cd.onupdate, cd.type)) =
      some (ColDefault.randomSalt, OnUpdate.noOnUpdate, ColType.string 32) ∧
    (applyUsersMutations (usersInsert rng name sk) ms).secret_key_salt =
      some (get_random_salt rng) := by
  refine ⟨by simp [get_random_salt], fun hc => ?_, rfl, ?_⟩
  · simp only [get_random_salt, List.mem_map] at hc
    obtain ⟨i, _, hi⟩ := hc
    subst hi
    refine getD_mem_of_lt saltAlphabet (rng i % saltAlphabet.length) 0 ?_
    exact Nat.mod_lt _ (by decide)
  · rw [applyUsersMutations_salt]
    rfl

/-- Witness for C8: the salt drawn from the identity source has 32
characters and its first character (code 97) is in the alphabet. -/
theorem claim_C8_salt_generation_witness :
    (get_random_salt (fun i => i)).length = 32 ∧ (97 : Nat) ∈ saltAlphabet :=
  ⟨(claim_C8_salt_generation (fun i => i) 0 "" none []).1,
   (claim_C8_salt_generation (fun i => i) 97 "" none []).2.1 (by decide)⟩

/-- C5 (spec-modelled encryption engine): storing a `Users` secret key
encrypts it under the record's stored salt and loading decrypts the
stored ciphertext under that same salt, returning the original plaintext;
the `secret_key` column is declared with the field-level encrypted type. -/
theorem claim_C5_secret_key_roundtrip (salt pt : List Nat)
    (h : ∀ b ∈ pt, b < 256) :
    (colByAttr usersColumns "secret_key").map (fun c => c.type) =
      some (ColType.encrypted (ColType.string 256)) ∧
    usersLoadSecretKey salt (usersStoreSecretKey salt pt) = pt :=
  ⟨rfl, decBytes_encBytes salt pt h 0⟩

/-- Witness for C5: a concrete two-byte secret round-trips under a
concrete salt. -/
theorem claim_C5_secret_key_roundtrip_witness :
    usersLoadSecretKey [5, 17] (usersStoreSecretKey [5, 17] [10, 255]) =
      [10, 255] :=
  (claim_C5_secret_key_roundtrip [5, 17] [10, 255] (by decide)).2

end Orm



